import Mathlib

/-!
Shallow embedding of `uni_form/helpers.py` (django-uni-form): the layout
rendering tree (`render_field`, `Layout`, `Fieldset`, `Row`, `Column`,
`MultiField`, `HTML`) and the `FormHelper` attribute object.

External framework services (Django template rendering, `BoundField`
auto ids, URL reversal) are modelled as function parameters collected in
an `Env` record; everything written in `helpers.py` itself is translated
directly.
-/

namespace UniForm

/-- Data of one form field as the host form exposes it to rendering:
its validation errors and its help text (Django `BoundField.errors`,
`field.help_text`). -/
structure FieldInfo where
  errors : List String
  helpText : String
deriving Repr, DecidableEq

/-- A host form: an ordered field-name to field mapping
(`form.fields`, a `SortedDict` in Django, so keys are unique and
ordered). -/
structure Form where
  fields : List (String × FieldInfo)
deriving Repr, DecidableEq

/-- `form.fields[name]` dictionary lookup (`None` result is the
embedding of a `KeyError`). -/
def Form.lookup (form : Form) (name : String) : Option FieldInfo :=
  List.lookup name form.fields

/-- `form.fields.keys()` in order. -/
def Form.keys (form : Form) : List String :=
  form.fields.map Prod.fst

/-- External services delegated to the host framework. -/
structure Env where
  /-- `render_to_string(template, dict(field=BoundField(form, instance, name), labelclass=...))`. -/
  renderToString : String → Form → String → Option String → String
  /-- `Template(raw).render(Context(dict(form=form)))` used by `HTML.render`. -/
  templateHtml : String → Form → String
  /-- `BoundField.auto_id` for a field name. -/
  autoId : String → String

/-- Python exceptions raised by the rendering code of `helpers.py`. -/
inductive PyErr where
  /-- `Exception("Field ... is using forbidden unicode characters")`, line 110. -/
  | forbiddenUnicode (field : String)
  /-- `Exception("Could not resolve form field ...")`, lines 116 and 218. -/
  | couldNotResolve (field : String)
  /-- `Exception("A field should only be rendered once: ...")`, line 127. -/
  | doubleRender (field : String)
  /-- Python `AttributeError` on a missing attribute. -/
  | attributeError (attr : String)
deriving Repr, DecidableEq

/-- The form's `rendered_fields` attribute: `none` when the attribute
does not exist on the form object yet. -/
abbrev RSt := Option (List String)

/-- The tail of `render_field` (lines 99-137) for a plain field-name
leaf.  `ascii = false` embeds a name whose `str`/`unicode` coercion
raises (non-ASCII content); the coercion failure raises unconditionally
(line 110).  Resolution failure (lines 112-119) raises in strict mode
and records `None` in permissive mode; the rendered-fields tracking
(lines 121-129) appends the name on first sight and raises or warns on a
double render; finally the bound field is rendered, or the empty string
substituted for an unresolved field (lines 131-137). -/
def renderLeaf (env : Env) (fs : Bool) (form : Form) (template : String)
    (labelclass : Option String) (name : String) (ascii : Bool)
    (st : RSt) : Except PyErr (String × RSt) :=
  if !ascii then
    .error (.forbiddenUnicode name)
  else
    let instOpt := Form.lookup form name
    if instOpt.isNone && !fs then
      .error (.couldNotResolve name)
    else
      let lst := st.getD []
      let html := if instOpt.isNone then ""
                  else env.renderToString template form name labelclass
      if name ∈ lst then
        if !fs then
          .error (.doubleRender name)
        else
          .ok (html, some lst)
      else
        .ok (html, some (lst ++ [name]))

/-- `'<p id="error_%i_%s" class="errorField">%s</p>' % (count, auto_id, error)`
accumulation of `MultiField.render` (lines 225-227), threading the
running counter. -/
def errorPs (autoId : String) : List String → Nat → String × Nat
  | [], count => ("", count)
  | e :: es, count =>
    let rest := errorPs autoId es (count + 1)
    ("<p id=\"error_" ++ toString count ++ "_" ++ autoId
       ++ "\" class=\"errorField\">" ++ e ++ "</p>" ++ rest.1, rest.2)

/-- `'<p id="hint_%s" class="formHint">%s</p>'` block of
`MultiField.render` (lines 228-229). -/
def helpP (autoId : String) (helpText : String) : String :=
  if helpText ≠ "" then
    "<p id=\"hint_" ++ autoId ++ "\" class=\"formHint\">" ++ helpText ++ "</p>"
  else ""

/-- `Fieldset.render` markup around the children (lines 177-191);
`""` stands for a css id/class that is unset or empty (both falsy). -/
def fieldsetWrap (cssId cssClass formStyle legend inner : String) : String :=
  "<fieldset"
    ++ (if cssId ≠ "" then " id=\"" ++ cssId ++ "\"" else "")
    ++ (if cssClass ≠ "" then " class=\"" ++ cssClass ++ " " ++ formStyle ++ "\""
        else " class=\"" ++ formStyle ++ "\"")
    ++ ">"
    ++ (if legend ≠ "" then "<legend>" ++ legend ++ "</legend>" else "")
    ++ inner ++ "</fieldset>"

/-- `Row.render` / `Column.render` markup around the children
(lines 257-268 and 279-290). -/
def divWrap (cssId cssClass inner : String) : String :=
  "<div"
    ++ (if cssId ≠ "" then " id=\"" ++ cssId ++ "\"" else "")
    ++ (if cssClass ≠ "" then " class=\"" ++ cssClass ++ "\"" else "")
    ++ ">" ++ inner ++ "</div>"

/-- Final markup assembly of `MultiField.render` (lines 234-246). -/
def multiAssemble (label divId divClass fieldoutput errors helptext : String) : String :=
  "<div"
    ++ (if divId ≠ "" then " id=\"" ++ divId ++ "\"" else "")
    ++ " class=\"" ++ divClass ++ "\"" ++ ">\n"
    ++ errors
    ++ (if label ≠ "" then "<p class=\"label\">" ++ label ++ "</p>\n" else "")
    ++ "<div class=\"multiField\">\n" ++ fieldoutput ++ "</div>\n"
    ++ helptext ++ "</div>\n"

mutual
/-- A node of the layout tree: a plain field-name leaf (with its
ASCII-coercibility), or one of the container objects of `helpers.py`. -/
inductive LNode where
  | fname (name : String) (ascii : Bool) : LNode
  | fieldset (legend cssId cssClass : String) (children : LNodes) : LNode
  | row (cssId cssClass : String) (children : LNodes) : LNode
  | column (cssId cssClass : String) (children : LNodes) : LNode
  | multi (label divId divClass labelClass : String) (children : LNodes) : LNode
  | html (raw : String) : LNode
/-- An ordered sequence of layout nodes (a container's `fields` list). -/
inductive LNodes where
  | nil : LNodes
  | cons (hd : LNode) (tl : LNodes) : LNodes
end

/-- The field object `MultiField.render` looks up in `form.fields`
(line 215): only a plain name resolves; container/HTML objects give a
`KeyError`. -/
def multiLookup (form : Form) (c : LNode) : Option (String × FieldInfo) :=
  match c with
  | .fname n _ => (Form.lookup form n).map (fun i => (n, i))
  | _ => none

/-- The `'%s'` interpolation of a field object into an error message. -/
def nodeName (c : LNode) : String :=
  match c with
  | .fname n _ => n
  | _ => "object"

mutual
/-- `render_field(field, form, form_style, template, labelclass)`
(lines 85-137): containers dispatch to their `render` method — a
`Fieldset` receives the current `form_style`, every other container is
called as `field.render(form)` — and a plain name goes through
`renderLeaf`. -/
def renderField (env : Env) (fs : Bool) (form : Form) (style template : String)
    (labelclass : Option String) : LNode → RSt → Except PyErr (String × RSt)
  | .fname name ascii, st => renderLeaf env fs form template labelclass name ascii st
  | .fieldset legend ci cc children, st => do
    let (inner, st1) ← renderNodes env fs form "" "uni_form/field.html" none children st
    .ok (fieldsetWrap ci cc style legend inner, st1)
  | .row ci cc children, st => do
    let (inner, st1) ← renderNodes env fs form "" "uni_form/field.html" none children st
    .ok (divWrap ci cc inner, st1)
  | .column ci cc children, st => do
    let (inner, st1) ← renderNodes env fs form "" "uni_form/field.html" none children st
    .ok (divWrap ci cc inner, st1)
  | .multi label di dc lc children, st => do
    let (fo, er, ht, _, st1) ← multiLoop env fs form lc children st 0
    if er ≠ "" then
      .error (.attributeError "css")
    else
      .ok (multiAssemble label di dc fo er ht, st1)
  | .html raw, st => .ok (env.templateHtml raw form, st)

/-- The `for field in self.fields: html += render_field(...)` loop shared
by `Layout`, `Fieldset`, `Row` and `Column`: children rendered left to
right, outputs concatenated, the rendered-fields state threaded. -/
def renderNodes (env : Env) (fs : Bool) (form : Form) (style template : String)
    (labelclass : Option String) : LNodes → RSt → Except PyErr (String × RSt)
  | .nil, st => .ok ("", st)
  | .cons n ns, st => do
    let (h, st1) ← renderField env fs form style template labelclass n st
    let (rest, st2) ← renderNodes env fs form style template labelclass ns st1
    .ok (h ++ rest, st2)

/-- The per-child loop of `MultiField.render` (lines 212-229): renders
each child with the multifield template, then re-resolves the original
child object to aggregate its errors and help text, skipping (or raising
on) unresolvable children.  Returns
`(fieldoutput, errors, helptext, count, rendered-state)`. -/
def multiLoop (env : Env) (fs : Bool) (form : Form) (labelClass : String) :
    LNodes → RSt → Nat → Except PyErr (String × String × String × Nat × RSt)
  | .nil, st, count => .ok ("", "", "", count, st)
  | .cons c cs, st, count => do
    let (fout, st1) ← renderField env fs form "" "uni_form/multifield.html"
      (some labelClass) c st
    match multiLookup form c with
    | none =>
      if !fs then
        .error (.couldNotResolve (nodeName c))
      else do
        let (fo, er, ht, cnt, st2) ← multiLoop env fs form labelClass cs st1 count
        .ok (fout ++ fo, er, ht, cnt, st2)
    | some (name, info) =>
      let aid := env.autoId name
      let errs := errorPs aid info.errors count
      let help := helpP aid info.helpText
      do
        let (fo, er, ht, cnt, st2) ← multiLoop env fs form labelClass cs st1 errs.2
        .ok (fout ++ fo, errs.1 ++ er, help ++ ht, cnt, st2)
end

/-- The second loop of `Layout.render` (lines 162-164):
`for field in form.fields.keys(): if not field in form.rendered_fields:
html += render_field(field, form, form_style)`.  Reading
`form.rendered_fields` when the attribute does not exist raises an
`AttributeError` (evaluated only when the loop body runs). -/
def appendLoop (env : Env) (fs : Bool) (form : Form) (style : String) :
    List String → RSt → Except PyErr (String × RSt)
  | [], st => .ok ("", st)
  | k :: ks, st =>
    match st with
    | none => .error (.attributeError "rendered_fields")
    | some lst =>
      if k ∈ lst then appendLoop env fs form style ks (some lst)
      else do
        let (h, st1) ← renderField env fs form style "uni_form/field.html" none
          (.fname k true) (some lst)
        let (rest, st2) ← appendLoop env fs form style ks st1
        .ok (h ++ rest, st2)

/-- `Layout.render(form, form_style)` (lines 158-165): the declared
nodes in order, then the append loop over the form's field keys.  The
incoming `st` is the form's `rendered_fields` attribute (persisted on
the form object across calls; `none` for a fresh form). -/
def layoutRender (env : Env) (fs : Bool) (form : Form) (nodes : LNodes)
    (style : String) (st : RSt) : Except PyErr (String × RSt) := do
  let (h1, st1) ← renderNodes env fs form style "uni_form/field.html" none nodes st
  let (h2, st2) ← appendLoop env fs form style (Form.keys form) st1
  .ok (h1 ++ h2, st2)

/-- Python's `str.lower()` (ASCII case folding on identifiers-style
strings), used by the method/style setters. -/
def pyLower (s : String) : String :=
  ⟨s.data.map Char.toLower⟩

/-- A button-like input descriptor (`BaseInput`: a name/value pair;
`Submit`, `Button`, `Hidden`, `Reset` only add fixed class strings). -/
structure BaseInput where
  name : String
  value : String
deriving Repr, DecidableEq

/-- The `FormHelper` attribute object (lines 302-429).  String-valued
optional attributes collapse Python `None` and `''` into `""` (both are
falsy and neither is ever rendered).  The class-level defaults of lines
347-356 are the structure's default values. -/
structure FormHelper where
  _form_method : String := "post"
  _form_action : String := ""
  _form_style : String := "default"
  form_id : String := ""
  form_class : String := ""
  form_tag : Bool := true
  form_error_title : String := ""
  formset_error_title : String := ""
  inputs : List BaseInput := []
deriving Repr, DecidableEq

/-- A helper as the constructor builds it: every attribute at its
class-level default (`__init__` only re-copies the `inputs` list, which
is the identity on values; aliasing is modelled separately below). -/
def defaultFormHelper : FormHelper := {}

/-- `get_form_method` (lines 361-362). -/
def get_form_method (h : FormHelper) : String :=
  h._form_method

/-- `set_form_method` (lines 364-369): anything but get/post (case
insensitively) raises `FormHelpersException` before assigning. -/
def set_form_method (h : FormHelper) (method : String) :
    Except String FormHelper :=
  if ¬ pyLower method ∈ ["get", "post"] then
    .error "Only GET and POST are valid in the form_method helper attribute"
  else
    .ok { h with _form_method := pyLower method }

/-- `get_form_action` (lines 374-378): try `reverse(action)`, fall back
to the literal string on `NoReverseMatch`.  `rev` models the external
URL-reversal service (`none` = `NoReverseMatch`). -/
def get_form_action (rev : String → Option String) (h : FormHelper) : String :=
  match rev h._form_action with
  | some url => url
  | none => h._form_action

/-- `set_form_action` (lines 380-381). -/
def set_form_action (h : FormHelper) (action : String) : FormHelper :=
  { h with _form_action := action }

/-- `get_form_style` (lines 386-391): `'default'` reads as `''`,
`'inline'` as `'inlineLabels'`, anything else falls off the end of the
Python function and reads as `None` (embedded as `none`). -/
def get_form_style (h : FormHelper) : Option String :=
  if h._form_style = "default" then some ""
  else if h._form_style = "inline" then some "inlineLabels"
  else none

/-- `set_form_style` (lines 393-398): anything but default/inline (case
insensitively) raises `FormHelpersException` before assigning. -/
def set_form_style (h : FormHelper) (style : String) :
    Except String FormHelper :=
  if ¬ pyLower style ∈ ["default", "inline"] then
    .error "Only default and inline are valid in the form_style helper attribute"
  else
    .ok { h with _form_style := pyLower style }

/-- `add_input` (lines 402-403). -/
def add_input (h : FormHelper) (input_object : BaseInput) : FormHelper :=
  { h with inputs := h.inputs ++ [input_object] }

/-- A value in the mapping `get_attributes` returns. -/
inductive AttrVal where
  | str (s : String)
  | flag (b : Bool)
  | inputList (l : List BaseInput)
deriving Repr, DecidableEq

/-- `get_attributes` (lines 411-429), as the ordered key/value list the
Python dict accumulates: `form_method`, `form_tag` and `form_style`
always, each optional attribute only when truthy.  When
`get_form_style` reads as Python `None` (unreachable through the
setter), `None.strip()` raises an `AttributeError`. -/
def get_attributes (rev : String → Option String) (h : FormHelper) :
    Except PyErr (List (String × AttrVal)) :=
  match get_form_style h with
  | none => .error (.attributeError "strip")
  | some style =>
    .ok ([("form_method", .str (get_form_method h).trim),
          ("form_tag", .flag h.form_tag),
          ("form_style", .str style.trim)]
      ++ (if get_form_action rev h ≠ "" then
            [("form_action", .str (get_form_action rev h).trim)] else [])
      ++ (if h.form_id ≠ "" then [("id", .str h.form_id.trim)] else [])
      ++ (if h.form_class ≠ "" then [("class", .str h.form_class.trim)] else [])
      ++ (if h.inputs ≠ [] then [("inputs", .inputList h.inputs)] else [])
      ++ (if h.form_error_title ≠ "" then
            [("form_error_title", .str h.form_error_title.trim)] else [])
      ++ (if h.formset_error_title ≠ "" then
            [("formset_error_title", .str h.formset_error_title.trim)] else []))

/-- The key set of an attribute mapping. -/
def attrKeys (items : List (String × AttrVal)) : List String :=
  items.map Prod.fst

/-!
Aliasing model for the `inputs` list (claim about `__init__` /
`add_input`).  Python lists are heap objects; `FormHelper.inputs = []`
is one class-level list object, `self.inputs = self.inputs[:]` in
`__init__` reads it through the class (the instance has no `inputs` yet)
and stores a fresh copy on the instance, and `add_input` mutates
whichever list object the instance attribute points to.
-/

/-- A heap of Python list objects, addressed by allocation index. -/
structure Heap where
  cells : List (List BaseInput)
deriving Repr, DecidableEq

/-- Dereference a list object. -/
def Heap.get (h : Heap) (r : Nat) : List BaseInput :=
  h.cells.getD r []

/-- In-place mutation of a list object. -/
def Heap.set (h : Heap) (r : Nat) (v : List BaseInput) : Heap :=
  ⟨h.cells.set r v⟩

/-- Allocate a fresh list object. -/
def Heap.alloc (h : Heap) (v : List BaseInput) : Heap × Nat :=
  (⟨h.cells ++ [v]⟩, h.cells.length)

/-- The class-level `FormHelper.inputs` list object. -/
def classInputsRef : Nat := 0

/-- The heap at module-import time: only the class-level empty list. -/
def heap0 : Heap := ⟨[[]]⟩

/-- A helper instance: its `__dict__` entry for `inputs`. -/
structure PyHelper where
  inputsRef : Nat
deriving Repr, DecidableEq

/-- `FormHelper.__init__` (lines 358-359): `self.inputs = self.inputs[:]`
— read through the class attribute, copy into a fresh list object, bind
the instance attribute to the copy. -/
def constructHelper (h : Heap) : Heap × PyHelper :=
  let copy := h.get classInputsRef
  let alloc := h.alloc copy
  (alloc.1, ⟨alloc.2⟩)

/-- `add_input` (lines 402-403) under the aliasing model:
`self.inputs.append(input_object)` mutates the pointed-to list object. -/
def addInputHeap (h : Heap) (ph : PyHelper) (x : BaseInput) : Heap :=
  h.set ph.inputsRef (h.get ph.inputsRef ++ [x])

/-!
Concrete fixtures used by witnesses and by the concrete evaluation
theorems: a minimal template environment and small forms.
-/

/-- A concrete template environment: a field renders as `[name]`, an
HTML node renders as its raw string, auto ids follow the Django default
`id_%s` pattern. -/
def env0 : Env where
  renderToString := fun _ _ name _ => "[" ++ name ++ "]"
  templateHtml := fun raw _ => raw
  autoId := fun name => "id_" ++ name

/-- A form with fields A, B, C (no errors, no help text). -/
def form3 : Form := ⟨[("A", ⟨[], ""⟩), ("B", ⟨[], ""⟩), ("C", ⟨[], ""⟩)]⟩

/-- A form with fields a, b (no errors, no help text). -/
def formAB : Form := ⟨[("a", ⟨[], ""⟩), ("b", ⟨[], ""⟩)]⟩

/-- A form whose single field carries one validation error. -/
def formErr : Form := ⟨[("email", ⟨["Enter a valid email address."], ""⟩)]⟩

/-- A form whose single field carries help text and no errors. -/
def formHelp : Form := ⟨[("email", ⟨[], "Enter your email"⟩)]⟩

/-- Concatenation of a list of markup fragments, in order. -/
def concatAll : List String → String
  | [] => ""
  | s :: ss => s ++ concatAll ss

/-- The markup a single resolvable field-name leaf contributes in the
layout loops (`render_field` with the default field template and no
label class). -/
def fieldHtml (env : Env) (form : Form) (name : String) : String :=
  env.renderToString "uni_form/field.html" form name none

mutual
/-- A node whose whole subtree contains no plain field-name leaf. -/
def noLeaf : LNode → Bool
  | .fname _ _ => false
  | .fieldset _ _ _ cs => noLeafs cs
  | .row _ _ cs => noLeafs cs
  | .column _ _ cs => noLeafs cs
  | .multi _ _ _ _ cs => noLeafs cs
  | .html _ => true
/-- A node sequence with no plain field-name leaf anywhere. -/
def noLeafs : LNodes → Bool
  | .nil => true
  | .cons c cs => noLeaf c && noLeafs cs
end

/-- First `FormHelper()` construction after module import. -/
def helperA : PyHelper := (constructHelper heap0).2

/-- Heap after the first construction. -/
def heapAfterA : Heap := (constructHelper heap0).1

/-- Second `FormHelper()` construction. -/
def helperB : PyHelper := (constructHelper heapAfterA).2

/-- Heap after the second construction. -/
def heapAfterB : Heap := (constructHelper heapAfterA).1

/-- Heap after `helperA.add_input(x)`. -/
def heapAfterAdd (x : BaseInput) : Heap := addInputHeap heapAfterB helperA x

/-- A key occurring in an association list has a successful lookup. -/
theorem lookup_isSome_of_mem_fst (ps : List (String × FieldInfo)) (k : String)
    (hk : k ∈ ps.map Prod.fst) : (List.lookup k ps).isSome := by
  induction ps with
  | nil => simp at hk
  | cons p ps ih =>
    rw [List.lookup]
    by_cases he : k = p.1
    · have hb : (k == p.1) = true := by simp [he]
      simp [hb]
    · have hb : (k == p.1) = false := by simp [he]
      simp only [hb]
      rw [List.map_cons] at hk
      rcases List.mem_cons.mp hk with h | h
      · exact absurd h he
      · exact ih h

/-- A name listed in `form.fields.keys()` resolves. -/
theorem lookup_isSome_of_mem_keys (form : Form) (k : String)
    (hk : k ∈ Form.keys form) : (Form.lookup form k).isSome :=
  lookup_isSome_of_mem_fst form.fields k hk

/-- The append loop of `Layout.render`, started on distinct resolvable
keys with the tracking attribute present, renders exactly the keys not
already tracked, in key order, and appends them to the tracking list. -/
theorem appendLoop_eq (env : Env) (fs : Bool) (form : Form) (style : String)
    (ks : List String) (lst : List String) (hnd : ks.Nodup)
    (hk : ∀ k ∈ ks, (Form.lookup form k).isSome) :
    appendLoop env fs form style ks (some lst) =
      .ok (concatAll ((ks.filter (fun k => !decide (k ∈ lst))).map (fieldHtml env form)),
           some (lst ++ ks.filter (fun k => !decide (k ∈ lst)))) := by
  induction ks generalizing lst with
  | nil => simp [appendLoop, concatAll]
  | cons k ks ih =>
    have hns := List.nodup_cons.mp hnd
    have hkSome : (Form.lookup form k).isSome := hk k (by simp)
    by_cases hmem : k ∈ lst
    · rw [appendLoop]
      simp only [hmem, if_pos]
      rw [ih lst hns.2 (fun x hx => hk x (List.mem_cons_of_mem _ hx))]
      simp [List.filter_cons, hmem]
    · obtain ⟨i, hi⟩ := Option.isSome_iff_exists.mp hkSome
      have hfilter : ks.filter (fun x => !decide (x ∈ lst ++ [k]))
          = ks.filter (fun x => !decide (x ∈ lst)) := by
        apply List.filter_congr
        intro x hx
        have hxk : x ≠ k := fun he => hns.1 (he ▸ hx)
        simp [List.mem_append, hxk]
      rw [appendLoop, if_neg hmem]
      simp only [renderField, renderLeaf, hi, Bind.bind, Except.bind,
        Bool.not_true, Option.isNone_some, Bool.false_and, Bool.and_false,
        Option.getD_some, Bool.false_eq_true, if_false, hmem, ite_false,
        reduceIte]
      rw [ih (lst ++ [k]) hns.2 (fun x hx => hk x (List.mem_cons_of_mem _ hx))]
      rw [hfilter]
      simp [concatAll, List.filter_cons, hmem, fieldHtml, List.append_assoc]

/-- Any key ends up either already tracked or among the filtered
appended keys. -/
theorem mem_tracked_or_appended (ks lst : List String) (k : String)
    (hk : k ∈ ks) : k ∈ lst ++ ks.filter (fun x => !decide (x ∈ lst)) := by
  rw [List.mem_append]
  by_cases hmem : k ∈ lst
  · exact Or.inl hmem
  · exact Or.inr (List.mem_filter.mpr ⟨hk, by simp [hmem]⟩)

/-- C1: for every layout and form, when the declared-node pass succeeds
and has created the rendered-fields tracking attribute, `Layout.render`
returns the concatenation of the declared nodes' markup followed by the
markup of every form field not yet in the rendered set, in the form's
natural field order, and afterwards every form field is in the rendered
set (no form field is dropped). -/
theorem layout_render_appends_unrendered_fields
    (env : Env) (fs : Bool) (form : Form) (style : String) (nodes : LNodes)
    (h1 : String) (lst : List String) (st0 : RSt)
    (hnd : (Form.keys form).Nodup)
    (h1eq : renderNodes env fs form style "uni_form/field.html" none nodes st0
      = .ok (h1, some lst)) :
    layoutRender env fs form nodes style st0 =
      .ok (h1 ++ concatAll (((Form.keys form).filter
              (fun k => !decide (k ∈ lst))).map (fieldHtml env form)),
           some (lst ++ (Form.keys form).filter (fun k => !decide (k ∈ lst)))) ∧
    ∀ k ∈ Form.keys form,
      k ∈ lst ++ (Form.keys form).filter (fun k => !decide (k ∈ lst)) := by
  refine ⟨?_, fun k hk => mem_tracked_or_appended _ _ _ hk⟩
  simp only [layoutRender, h1eq, Bind.bind, Except.bind]
  rw [appendLoop_eq env fs form style (Form.keys form) lst hnd
    (fun k hk => lookup_isSome_of_mem_keys form k hk)]

/-- Witness for C1: a layout declaring fields A and B over a form with
fields A, B, C renders A and B in declared order and appends C, and no
form field is missing from the rendered set. -/
theorem layout_render_appends_unrendered_fields_witness :
    layoutRender env0 true form3
        (.cons (.fname "A" true) (.cons (.fname "B" true) .nil)) "" none =
      .ok ("[A][B]" ++ concatAll (((Form.keys form3).filter
              (fun k => !decide (k ∈ ["A", "B"]))).map (fieldHtml env0 form3)),
           some (["A", "B"] ++ (Form.keys form3).filter
              (fun k => !decide (k ∈ ["A", "B"])))) ∧
    ∀ k ∈ Form.keys form3,
      k ∈ ["A", "B"] ++ (Form.keys form3).filter (fun k => !decide (k ∈ ["A", "B"])) :=
  layout_render_appends_unrendered_fields env0 true form3 ""
    (.cons (.fname "A" true) (.cons (.fname "B" true) .nil)) "[A][B]" ["A", "B"] none
    (by decide) (by rfl)

mutual
/-- Rendering a node with no field-name leaf in permissive mode always
succeeds and leaves the rendered-fields attribute untouched (in
particular it never creates it). -/
theorem renderField_leafless (env : Env) (form : Form) (style template : String)
    (lc : Option String) (n : LNode) (st : RSt) (hn : noLeaf n = true) :
    ∃ h, renderField env true form style template lc n st = .ok (h, st) :=
  match n, hn with
  | .fname _ _, hn => absurd hn (by simp [noLeaf])
  | .html raw, _ => ⟨env.templateHtml raw form, by simp [renderField]⟩
  | .fieldset l ci cc cs, hn =>
    let ⟨h, hh⟩ := renderNodes_leafless env form "" "uni_form/field.html" none cs st
      (by simpa [noLeaf] using hn)
    ⟨fieldsetWrap ci cc style l h, by simp [renderField, hh, Bind.bind, Except.bind]⟩
  | .row ci cc cs, hn =>
    let ⟨h, hh⟩ := renderNodes_leafless env form "" "uni_form/field.html" none cs st
      (by simpa [noLeaf] using hn)
    ⟨divWrap ci cc h, by simp [renderField, hh, Bind.bind, Except.bind]⟩
  | .column ci cc cs, hn =>
    let ⟨h, hh⟩ := renderNodes_leafless env form "" "uni_form/field.html" none cs st
      (by simpa [noLeaf] using hn)
    ⟨divWrap ci cc h, by simp [renderField, hh, Bind.bind, Except.bind]⟩
  | .multi l di dc lcc cs, hn =>
    let ⟨fo, hm⟩ := multiLoop_leafless env form lcc cs st 0
      (by simpa [noLeaf] using hn)
    ⟨multiAssemble l di dc fo "" "", by simp [renderField, hm, Bind.bind, Except.bind]⟩

/-- Rendering a leafless node sequence in permissive mode succeeds and
leaves the rendered-fields attribute untouched. -/
theorem renderNodes_leafless (env : Env) (form : Form) (style template : String)
    (lc : Option String) (ns : LNodes) (st : RSt) (hn : noLeafs ns = true) :
    ∃ h, renderNodes env true form style template lc ns st = .ok (h, st) :=
  match ns, hn with
  | .nil, _ => ⟨"", by simp [renderNodes]⟩
  | .cons c cs, hn =>
    have hcn : noLeaf c = true ∧ noLeafs cs = true := by
      simpa [noLeafs, Bool.and_eq_true] using hn
    let ⟨h1, hh1⟩ := renderField_leafless env form style template lc c st hcn.1
    let ⟨h2, hh2⟩ := renderNodes_leafless env form style template lc cs st hcn.2
    ⟨h1 ++ h2, by simp [renderNodes, hh1, hh2, Bind.bind, Except.bind]⟩

/-- The `MultiField` per-child loop on leafless children in permissive
mode: every child is unresolvable, so it succeeds with empty error and
help-text accumulators, an unchanged counter and an untouched
rendered-fields attribute. -/
theorem multiLoop_leafless (env : Env) (form : Form) (lcc : String)
    (cs : LNodes) (st : RSt) (count : Nat) (hn : noLeafs cs = true) :
    ∃ fo, multiLoop env true form lcc cs st count = .ok (fo, "", "", count, st) :=
  match cs, hn with
  | .nil, _ => ⟨"", by simp [multiLoop]⟩
  | .cons c cs', hn =>
    have hcn : noLeaf c = true ∧ noLeafs cs' = true := by
      simpa [noLeafs, Bool.and_eq_true] using hn
    have hml : multiLookup form c = none := by
      cases c with
      | fname n a => exact absurd hcn.1 (by simp [noLeaf])
      | fieldset l ci cc cs => simp [multiLookup]
      | row ci cc cs => simp [multiLookup]
      | column ci cc cs => simp [multiLookup]
      | multi l di dc lc cs => simp [multiLookup]
      | html raw => simp [multiLookup]
    let ⟨h1, hh1⟩ := renderField_leafless env form "" "uni_form/multifield.html"
      (some lcc) c st hcn.1
    let ⟨fo, hm⟩ := multiLoop_leafless env form lcc cs' st count hcn.2
    ⟨h1 ++ fo, by simp [multiLoop, hh1, hml, hm, Bind.bind, Except.bind]⟩
end

/-- C2 (code bug): the rendered-fields list persists on the form across
render passes — nothing resets it.  A first permissive pass of a layout
declaring only `a` over a form with fields `a`, `b` yields `[a][b]` and
leaves `rendered_fields = [a, b]` on the form; a second, independent
pass of the same layout over the same form starts from that persisted
list, so it treats both fields as already rendered: it emits only `[a]`
(the auto-appended `b` is dropped), and in strict mode it raises the
double-render error instead of behaving like a fresh pass. -/
theorem rendered_fields_persist_across_passes :
    layoutRender env0 true formAB (.cons (.fname "a" true) .nil) "" none
      = .ok ("[a][b]", some ["a", "b"]) ∧
    layoutRender env0 true formAB (.cons (.fname "a" true) .nil) "" (some ["a", "b"])
      = .ok ("[a]", some ["a", "b"]) ∧
    layoutRender env0 false formAB (.cons (.fname "a" true) .nil) "" (some ["a", "b"])
      = .error (.doubleRender "a") :=
  ⟨rfl, rfl, rfl⟩

/-- C3 (code bug): when any resolvable field of a `MultiField` has a
validation error, `MultiField.render` evaluates `self.css += ' error'`
— but no `css` attribute exists on `MultiField`, so the render raises an
`AttributeError` instead of returning the aggregated markup.  When no
field has errors the intended aggregation works: the help text is
emitted as a `hint_<auto id>` block outside the field list. -/
theorem multifield_error_aggregation_attribute_bug :
    renderField env0 true formErr "" "uni_form/field.html" none
        (.multi "Contact" "" "ctrlHolder" "blockLabel"
          (.cons (.fname "email" true) .nil)) none
      = .error (.attributeError "css") ∧
    renderField env0 true formHelp "" "uni_form/field.html" none
        (.multi "Contact" "" "ctrlHolder" "blockLabel"
          (.cons (.fname "email" true) .nil)) none
      = .ok ("<div class=\"ctrlHolder\">\n<p class=\"label\">Contact</p>\n<div class=\"multiField\">\n[email]</div>\n<p id=\"hint_id_email\" class=\"formHint\">Enter your email</p></div>\n",
             some ["email"]) :=
  ⟨rfl, rfl⟩

/-- C4 counterexample: in permissive (fail-silently, the default) mode,
rendering a field whose identifier fails the unicode coercion does not
log-and-substitute-empty — it raises the forbidden-unicode exception. -/
theorem invalid_unicode_raises_in_permissive_mode :
    renderField env0 true form3 "" "uni_form/field.html" none
        (.fname "bademail" false) none
      = .error (.forbiddenUnicode "bademail") :=
  rfl

/-- C4 amended: a field identifier with invalid unicode raises
immediately in BOTH permissive and strict modes; the coercion guard of
`render_field` is not covered by the fail-silently switch. -/
theorem invalid_unicode_raises_in_both_modes (env : Env) (fs : Bool)
    (form : Form) (style template : String) (lc : Option String)
    (name : String) (st : RSt) :
    renderField env fs form style template lc (.fname name false) st
      = .error (.forbiddenUnicode name) := by
  simp [renderField, renderLeaf]

/-- C5: a layout field name absent from the form's field mapping raises
the could-not-resolve exception when fail-silently is off, and renders
the empty string for that field (returning normally with the name
tracked, so the rest of the render continues) when fail-silently is
on. -/
theorem unresolved_field_strict_raises_permissive_empty
    (env : Env) (form : Form) (style template : String) (lc : Option String)
    (name : String) (st : RSt)
    (hmiss : Form.lookup form name = none)
    (hnew : ¬ name ∈ st.getD []) :
    renderField env false form style template lc (.fname name true) st
      = .error (.couldNotResolve name) ∧
    renderField env true form style template lc (.fname name true) st
      = .ok ("", some (st.getD [] ++ [name])) := by
  constructor
  · simp [renderField, renderLeaf, hmiss]
  · simp [renderField, renderLeaf, hmiss, hnew]

/-- Witness for C5 at a concrete missing field. -/
theorem unresolved_field_strict_raises_permissive_empty_witness :
    renderField env0 false form3 "" "uni_form/field.html" none
        (.fname "zzz" true) none
      = .error (.couldNotResolve "zzz") ∧
    renderField env0 true form3 "" "uni_form/field.html" none
        (.fname "zzz" true) none
      = .ok ("", some ["zzz"]) :=
  unresolved_field_strict_raises_permissive_empty env0 form3 ""
    "uni_form/field.html" none "zzz" none (by rfl) (by decide)

/-- C9: `__init__` copies the class-level default `inputs` list, so
`add_input` on one constructed helper appends only to that instance's
own list object: the other helper's list, the class-level default, and
the list a later construction receives all stay empty. -/
theorem add_input_does_not_mutate_shared_default (x : BaseInput) :
    Heap.get (heapAfterAdd x) helperA.inputsRef = [x] ∧
    Heap.get (heapAfterAdd x) helperB.inputsRef = [] ∧
    Heap.get (heapAfterAdd x) classInputsRef = [] ∧
    Heap.get (constructHelper (heapAfterAdd x)).1
      (constructHelper (heapAfterAdd x)).2.inputsRef = [] :=
  ⟨rfl, rfl, rfl, rfl⟩

/-- C10: a layout whose node tree contains no plain field-name leaf,
rendered in permissive (default) mode against a form with at least one
field and no pre-existing `rendered_fields` attribute, raises an
`AttributeError`: the appended-fields loop reads `form.rendered_fields`,
which only `render_field` on a field-name leaf ever creates. -/
theorem leafless_layout_raises_attribute_error
    (env : Env) (form : Form) (style : String) (nodes : LNodes)
    (hn : noLeafs nodes = true) (hne : form.fields ≠ []) :
    layoutRender env true form nodes style none
      = .error (.attributeError "rendered_fields") := by
  obtain ⟨h1, hh1⟩ := renderNodes_leafless env form style "uni_form/field.html"
    none nodes none hn
  have hkeys : ∃ k ks, Form.keys form = k :: ks := by
    cases hf : form.fields with
    | nil => exact absurd hf hne
    | cons p ps => exact ⟨p.1, ps.map Prod.fst, by simp [Form.keys, hf]⟩
  obtain ⟨k, ks, hk⟩ := hkeys
  simp [layoutRender, hh1, hk, appendLoop, Bind.bind, Except.bind]

/-- Witness for C10: a layout holding only an HTML node over a form
with fields raises the attribute error. -/
theorem leafless_layout_raises_attribute_error_witness :
    layoutRender env0 true form3 (.cons (.html "<hr/>") .nil) "" none
      = .error (.attributeError "rendered_fields") :=
  leafless_layout_raises_attribute_error env0 form3 ""
    (.cons (.html "<hr/>") .nil) (by rfl) (by decide)

/-- C6: a layout in which the same resolvable field name occurs twice
raises the double-render exception in strict mode; in permissive mode
the render returns normally and the field's markup appears twice in the
output (no deduplication), followed by the auto-appended remaining
fields. -/
theorem duplicate_field_strict_raises_permissive_renders_twice
    (env : Env) (form : Form) (style : String) (f : String) (i : FieldInfo)
    (hf : Form.lookup form f = some i) (hnd : (Form.keys form).Nodup) :
    layoutRender env false form
        (.cons (.fname f true) (.cons (.fname f true) .nil)) style none
      = .error (.doubleRender f) ∧
    layoutRender env true form
        (.cons (.fname f true) (.cons (.fname f true) .nil)) style none
      = .ok (fieldHtml env form f ++ fieldHtml env form f ++
             concatAll (((Form.keys form).filter
               (fun k => !decide (k ∈ [f]))).map (fieldHtml env form)),
           some ([f] ++ (Form.keys form).filter (fun k => !decide (k ∈ [f])))) := by
  constructor
  · simp [layoutRender, renderNodes, renderField, renderLeaf, hf,
      Bind.bind, Except.bind]
  · have happ := appendLoop_eq env true form style (Form.keys form) [f] hnd
      (fun k hk => lookup_isSome_of_mem_keys form k hk)
    simp only [layoutRender, renderNodes, renderField, renderLeaf, hf,
      Bind.bind, Except.bind, Option.isNone_some, Bool.not_true,
      Bool.false_and, Bool.and_false, Bool.false_eq_true, if_false,
      reduceIte, Option.getD_none, Option.getD_some, List.not_mem_nil,
      List.mem_singleton, List.nil_append, List.append_nil]
    rw [happ]
    simp [fieldHtml, String.append_assoc]

/-- Witness for C6 at a concrete form and duplicated field. -/
theorem duplicate_field_strict_raises_permissive_renders_twice_witness :
    layoutRender env0 false form3
        (.cons (.fname "A" true) (.cons (.fname "A" true) .nil)) "" none
      = .error (.doubleRender "A") ∧
    layoutRender env0 true form3
        (.cons (.fname "A" true) (.cons (.fname "A" true) .nil)) "" none
      = .ok (fieldHtml env0 form3 "A" ++ fieldHtml env0 form3 "A" ++
             concatAll (((Form.keys form3).filter
               (fun k => !decide (k ∈ ["A"]))).map (fieldHtml env0 form3)),
           some (["A"] ++ (Form.keys form3).filter
               (fun k => !decide (k ∈ ["A"])))) :=
  duplicate_field_strict_raises_permissive_renders_twice env0 form3 "" "A"
    ⟨[], ""⟩ (by rfl) (by decide)

/-- C7: a freshly constructed helper reads `form_style` as `''` and
`form_method` as `'post'`; assigning a method outside get/post or a
style outside default/inline (case-insensitively) raises
`FormHelpersException` at assignment time, so no new helper state is
produced and the stored value is unchanged. -/
theorem helper_defaults_and_setter_validation
    (h : FormHelper) (m s : String)
    (hm : ¬ pyLower m ∈ ["get", "post"])
    (hs : ¬ pyLower s ∈ ["default", "inline"]) :
    get_form_style defaultFormHelper = some "" ∧
    get_form_method defaultFormHelper = "post" ∧
    set_form_method h m
      = .error "Only GET and POST are valid in the form_method helper attribute" ∧
    set_form_style h s
      = .error "Only default and inline are valid in the form_style helper attribute" := by
  refine ⟨rfl, rfl, ?_, ?_⟩
  · simp [set_form_method, hm]
  · simp [set_form_style, hs]

/-- Witness for C7 at concrete invalid method and style strings. -/
theorem helper_defaults_and_setter_validation_witness :
    get_form_style defaultFormHelper = some "" ∧
    get_form_method defaultFormHelper = "post" ∧
    set_form_method defaultFormHelper "put"
      = .error "Only GET and POST are valid in the form_method helper attribute" ∧
    set_form_style defaultFormHelper "fancy"
      = .error "Only default and inline are valid in the form_style helper attribute" :=
  helper_defaults_and_setter_validation defaultFormHelper "put" "fancy"
    (by decide) (by decide)

/-- C8: `get_attributes` always contains `form_method`, `form_tag` and
`form_style`; each optional key (`form_action`, `id`, `class`, `inputs`,
`form_error_title`, `formset_error_title`) is present exactly when the
corresponding attribute holds a non-empty value, so an omitted optional
attribute is absent from the mapping.  The URL-reversal hypotheses state
the host service's behaviour: reversing the empty name fails, and a
successful reversal returns a non-empty URL. -/
theorem get_attributes_optional_keys_iff_nonempty
    (rev : String → Option String) (h : FormHelper)
    (hstyle : get_form_style h ≠ none)
    (hrev0 : rev "" = none)
    (hrevne : ∀ s u, rev s = some u → u ≠ "") :
    ∃ items, get_attributes rev h = .ok items ∧
      "form_method" ∈ attrKeys items ∧
      "form_tag" ∈ attrKeys items ∧
      "form_style" ∈ attrKeys items ∧
      ("form_action" ∈ attrKeys items ↔ h._form_action ≠ "") ∧
      ("id" ∈ attrKeys items ↔ h.form_id ≠ "") ∧
      ("class" ∈ attrKeys items ↔ h.form_class ≠ "") ∧
      ("inputs" ∈ attrKeys items ↔ h.inputs ≠ []) ∧
      ("form_error_title" ∈ attrKeys items ↔ h.form_error_title ≠ "") ∧
      ("formset_error_title" ∈ attrKeys items ↔ h.formset_error_title ≠ "") := by
  have haction : (get_form_action rev h ≠ "") ↔ (h._form_action ≠ "") := by
    unfold get_form_action
    cases hr : rev h._form_action with
    | none => exact Iff.rfl
    | some u =>
      have hu : u ≠ "" := hrevne _ _ hr
      constructor
      · intro _ he
        rw [he, hrev0] at hr
        cases hr
      · intro _
        exact hu
  obtain ⟨style, hst⟩ := Option.ne_none_iff_exists'.mp hstyle
  refine ⟨_, by rw [get_attributes, hst], ?_⟩
  simp only [attrKeys, List.map_append, List.mem_append, List.map_cons,
    List.map_nil, List.mem_cons, List.not_mem_nil]
  constructor
  · simp
  constructor
  · simp
  constructor
  · simp
  rw [← haction]
  split_ifs <;> simp_all

/-- Witness for C8: a helper with an action and an id set, an empty
class and no inputs or error titles, under a reversal service that
always fails. -/
theorem get_attributes_optional_keys_iff_nonempty_witness :
    ∃ items, get_attributes (fun _ => none)
        { defaultFormHelper with _form_action := "next", form_id := "myid" }
      = .ok items ∧
      "form_method" ∈ attrKeys items ∧
      "form_tag" ∈ attrKeys items ∧
      "form_style" ∈ attrKeys items ∧
      ("form_action" ∈ attrKeys items ↔
        ({ defaultFormHelper with _form_action := "next", form_id := "myid" } : FormHelper)._form_action ≠ "") ∧
      ("id" ∈ attrKeys items ↔
        ({ defaultFormHelper with _form_action := "next", form_id := "myid" } : FormHelper).form_id ≠ "") ∧
      ("class" ∈ attrKeys items ↔
        ({ defaultFormHelper with _form_action := "next", form_id := "myid" } : FormHelper).form_class ≠ "") ∧
      ("inputs" ∈ attrKeys items ↔
        ({ defaultFormHelper with _form_action := "next", form_id := "myid" } : FormHelper).inputs ≠ []) ∧
      ("form_error_title" ∈ attrKeys items ↔
        ({ defaultFormHelper with _form_action := "next", form_id := "myid" } : FormHelper).form_error_title ≠ "") ∧
      ("formset_error_title" ∈ attrKeys items ↔
        ({ defaultFormHelper with _form_action := "next", form_id := "myid" } : FormHelper).formset_error_title ≠ "") :=
  get_attributes_optional_keys_iff_nonempty (fun _ => none)
    { defaultFormHelper with _form_action := "next", form_id := "myid" }
    (by decide) rfl (fun s u hsu => Option.noConfusion hsu)

end UniForm
